import Mathlib

/-!
Verification development for the SF Domain report-processing pipeline
(webhook handler, metric normalization, period-label derivation, filename
derivation, publishing protocol and payload validation).

The Python source is shallowly embedded: Python values are modelled by the

inductive type PyVal, Python floats by exact rationals, and fallible code by
Except. Each definition mirrors one function of the repository; the file
then proves or refutes the frozen claims about those functions.
-/

/-- Model of a Python runtime value as it occurs in this program: JSON-decoded
webhook payloads and Airtable record fields (numbers, strings, booleans,
None, lists, dicts). Dicts are association lists in insertion order. -/
inductive PyVal where
  | int : Int → PyVal
  | float : Rat → PyVal
  | str : String → PyVal
  | boolV : Bool → PyVal
  | noneV : PyVal
  | list : List PyVal → PyVal
  | dict : List (String × PyVal) → PyVal

/-- Model of the Python exceptions raised by the embedded code paths. -/
inductive PyErr where
  | typeError : PyErr
  | valueError : PyErr
  | attributeError : PyErr
  | zeroDivisionError : PyErr
  | uploadFailed : Nat → PyErr
deriving DecidableEq

/-- Dictionary lookup: first binding of the key, if any (Python dicts hold at
most one binding per key; the model tolerates duplicates by taking the first). -/
def pyLookup (kvs : List (String × PyVal)) (key : String) : Option PyVal :=
  match kvs with
  | [] => Option.none
  | (k, v) :: rest => if k = key then some v else pyLookup rest key

/-- Model of dict.get(key, default). -/
def pyGet (kvs : List (String × PyVal)) (key : String) (dflt : PyVal) : PyVal :=
  match pyLookup kvs key with
  | some v => v
  | Option.none => dflt

/-- Split a character list at every occurrence of the separator character
(model of Python str.split with a single-character separator, which keeps
empty chunks). -/
def splitChar (sep : Char) : List Char → List (List Char)
  | [] => [[]]
  | c :: rest =>
    match splitChar sep rest with
    | [] => [[c]]
    | g :: gs => if c = sep then [] :: g :: gs else (c :: g) :: gs

/-- Numeric value of a list of decimal digit characters. -/
def digitsToNat (l : List Char) : Nat :=
  l.foldl (fun a c => a * 10 + (c.toNat - 48)) 0

/-- True when every character is a decimal digit. -/
def allDigits (l : List Char) : Bool :=
  l.all (fun c => c.isDigit)

/-- Model of Python float(string) for the plain decimal literals this program
receives (optional sign, digits with at most one decimal point, surrounding
whitespace). Exotic forms (exponents, inf, nan, underscores) are outside the
inputs exercised here and parse to Option.none. -/
def parseFloatChars (l : List Char) : Option Rat :=
  let trimmed := ((l.dropWhile (fun c => c.isWhitespace)).reverse.dropWhile
    (fun c => c.isWhitespace)).reverse
  let (neg, body) :=
    match trimmed with
    | '-' :: rest => (true, rest)
    | '+' :: rest => (false, rest)
    | other => (false, other)
  let value? : Option Rat :=
    match splitChar '.' body with
    | [ip] =>
      if ip ≠ [] ∧ allDigits ip then some ((digitsToNat ip : Int) : Rat)
      else Option.none
    | [ip, fp] =>
      if (ip ≠ [] ∨ fp ≠ []) ∧ allDigits ip ∧ allDigits fp then
        some (((digitsToNat ip : Int) : Rat) +
          ((digitsToNat fp : Int) : Rat) / ((10 : Rat) ^ fp.length))
      else Option.none
    | _ => Option.none
  value?.map (fun q => if neg then -q else q)

/-- Model of Python float(v): numbers and booleans convert, numeric-looking
strings parse (ValueError otherwise), and None/list/dict raise TypeError. -/
def pyFloat : PyVal → Except PyErr Rat
  | .int n => .ok (n : Rat)
  | .float q => .ok q
  | .boolV b => .ok (if b then 1 else 0)
  | .str s =>
    match parseFloatChars s.data with
    | some q => .ok q
    | Option.none => .error .valueError
  | .noneV => .error .typeError
  | .list _ => .error .typeError
  | .dict _ => .error .typeError

/-- Embeds round_up from webhook.py (lines 160-164): int(math.ceil(float(val)))
with a bare except that returns the ORIGINAL value unchanged when float(val)
raises. -/
def round_up (val : PyVal) : PyVal :=
  match pyFloat val with
  | .ok q => .int ⌈q⌉
  | .error _ => val

/-- Model of Python binary + on the value shapes reachable after round_up:
numbers add, strings and lists concatenate, any other mix raises TypeError. -/
def pyAdd : PyVal → PyVal → Except PyErr PyVal
  | .int a, .int b => .ok (.int (a + b))
  | .int a, .float b => .ok (.float ((a : Rat) + b))
  | .float a, .int b => .ok (.float (a + (b : Rat)))
  | .float a, .float b => .ok (.float (a + b))
  | .str a, .str b => .ok (.str (a ++ b))
  | .list a, .list b => .ok (.list (a ++ b))
  | _, _ => .error .typeError

/-- Round half to even to an integer (the rounding used by Python round). -/
def roundHalfEven (x : Rat) : Int :=
  let f : Int := ⌊x⌋
  let r : Rat := x - (f : Rat)
  if r < 1 / 2 then f
  else if 1 / 2 < r then f + 1
  else if f % 2 = 0 then f else f + 1

/-- Model of Python round(x, 2): round half to even at two decimal places. -/
def pyRound2 (x : Rat) : Rat :=
  ((roundHalfEven (x * 100) : Int) : Rat) / 100

/-- Embeds the cost_per_lead expression of webhook.py lines 172-176:
round(float(cost) / float(total_leads), 2) when float(total_leads) is truthy,
0.0 when it is zero, and 0.0 via the except arm when either float() raises. -/
def costPerLeadRat (cost total_leads : PyVal) : Rat :=
  match pyFloat total_leads with
  | .error _ => 0
  | .ok t =>
    if t = 0 then 0
    else
      match pyFloat cost with
      | .error _ => 0
      | .ok c => pyRound2 (c / t)

/-- The template_data dictionary assembled by process_report (webhook.py
lines 179-188). -/
structure TemplateData where
  report_month : String
  total_leads : PyVal
  conversions : PyVal
  cost : PyVal
  cost_per_lead : PyVal
  quote_starts : PyVal
  phone_clicks : PyVal
  sms_clicks : PyVal

/-- Embeds webhook.py lines 159-188 given the five already-extracted raw
values: round each up, sum the four lead metrics (quote_starts +
phone_clicks + sms_clicks + conversions, left to right; Python + raises
TypeError on mixed leftovers), derive cost_per_lead, and assemble
template_data. -/
def buildTemplateDataVals (cost0 phone0 sms0 quote0 conv0 : PyVal)
    (report_month : String) : Except PyErr TemplateData :=
  let cost := round_up cost0
  let phone_clicks := round_up phone0
  let sms_clicks := round_up sms0
  let quote_starts := round_up quote0
  let conversions := round_up conv0
  (pyAdd quote_starts phone_clicks).bind fun a =>
  (pyAdd a sms_clicks).bind fun b =>
  (pyAdd b conversions).bind fun total_leads =>
  Except.ok ⟨report_month, total_leads, conversions, cost,
    round_up (.float (costPerLeadRat cost total_leads)),
    quote_starts, phone_clicks, sms_clicks⟩

/-- Embeds the raw-field extraction of webhook.py lines 136-140 followed by
the normalization of lines 159-188. -/
def buildTemplateData (fields : List (String × PyVal))
    (report_month : String) : Except PyErr TemplateData :=
  buildTemplateDataVals
    (pyGet fields "Cost (from Keyword Performance)" (.int 0))
    (pyGet fields "Phone Clicks (from Keyword Performance)" (.int 0))
    (pyGet fields "SMS Clicks (from Keyword Performance)" (.int 0))
    (pyGet fields "Quote Starts (from Keyword Performance)" (.int 0))
    (pyGet fields "Conversions (from Keyword Performance)" (.int 0))
    report_month

/-- A calendar date as held by a Python datetime (year, month, day). -/
structure PyDate where
  year : Nat
  month : Nat
  day : Nat
deriving DecidableEq

/-- Gregorian leap-year rule (the rule the Python datetime module implements). -/
def isLeap (y : Nat) : Bool :=
  y % 4 = 0 && (y % 100 ≠ 0 || y % 400 = 0)

/-- Number of days in a month under the Gregorian calendar. -/
def daysInMonth (y m : Nat) : Nat :=
  if m = 2 then (if isLeap y then 29 else 28)
  else if m = 4 ∨ m = 6 ∨ m = 9 ∨ m = 11 then 30
  else 31

/-- Model of datetime.strptime(s, YYYY-MM-DD): exactly three dash-separated
chunks, a 4-digit year at least 1 (datetime.MINYEAR), a 1- or 2-digit month in
1..12, and a 1- or 2-digit day within the month (strptime validates the day
against the month, February 29 only in leap years); anything else raises
ValueError, modelled as Option.none. -/
def parseYMD (s : String) : Option PyDate :=
  match splitChar '-' s.data with
  | [y, m, d] =>
    if y.length = 4 ∧ allDigits y ∧ 1 ≤ digitsToNat y
        ∧ (m.length = 1 ∨ m.length = 2) ∧ allDigits m
        ∧ 1 ≤ digitsToNat m ∧ digitsToNat m ≤ 12
        ∧ (d.length = 1 ∨ d.length = 2) ∧ allDigits d
        ∧ 1 ≤ digitsToNat d
        ∧ digitsToNat d ≤ daysInMonth (digitsToNat y) (digitsToNat m)
    then some ⟨digitsToNat y, digitsToNat m, digitsToNat d⟩
    else Option.none
  | _ => Option.none

/-- The calendar day before a given date, as computed by subtracting
timedelta(days=1) from a Python datetime. -/
def datePred (d : PyDate) : PyDate :=
  if 1 < d.day then ⟨d.year, d.month, d.day - 1⟩
  else if d.month = 1 then ⟨d.year - 1, 12, 31⟩
  else ⟨d.year, d.month - 1, daysInMonth d.year (d.month - 1)⟩

/-- English month name, as produced by strftime %B under the C locale. -/
def monthName (m : Nat) : String :=
  match m with
  | 1 => "January" | 2 => "February" | 3 => "March" | 4 => "April"
  | 5 => "May" | 6 => "June" | 7 => "July" | 8 => "August"
  | 9 => "September" | 10 => "October" | 11 => "November" | 12 => "December"
  | _ => ""

/-- Two-digit zero-padded decimal (strftime %m and %d). -/
def pad2 (n : Nat) : String :=
  if n < 10 then "0" ++ toString n else toString n

/-- Four-digit zero-padded decimal (strftime %Y as documented by Python). -/
def pad4 (n : Nat) : String :=
  if n < 10 then "000" ++ toString n
  else if n < 100 then "00" ++ toString n
  else if n < 1000 then "0" ++ toString n
  else toString n

/-- The strftime m-d-Y rendering of one date used in the range label. -/
def mdyStr (d : PyDate) : String :=
  pad2 d.month ++ "-" ++ pad2 d.day ++ "-" ++ pad4 d.year

/-- Embeds the report_month derivation of webhook.py lines 141-158: parse both
dates; when the range is exactly the first through the last day of the start
month, render the month name and year; otherwise render the zero-padded
m-d-Y range; if either parse raises, fall back to the raw concatenation. -/
def reportMonthOf (date_start date_end : String) : String :=
  match parseYMD date_start, parseYMD date_end with
  | some start_dt, some end_dt =>
    let first_of_month : PyDate := ⟨start_dt.year, start_dt.month, 1⟩
    let next_month : PyDate :=
      if start_dt.month = 12 then ⟨start_dt.year + 1, 1, 1⟩
      else ⟨start_dt.year, start_dt.month + 1, 1⟩
    let last_of_month := datePred next_month
    if start_dt = first_of_month ∧ end_dt = last_of_month then
      monthName start_dt.month ++ " " ++ pad4 start_dt.year
    else
      mdyStr start_dt ++ "-" ++ mdyStr end_dt
  | _, _ => date_start ++ "-" ++ date_end

/-- The whitespace characters stripped by Python str.strip (ASCII range). -/
def pyIsSpace (c : Char) : Bool :=
  c = ' ' || c = '\t' || c = '\n' || c = '\r' || c = '\x0b' || c = '\x0c'

/-- Model of Python str.strip(): remove leading and trailing whitespace. -/
def pyStrip (s : String) : String :=
  String.mk (((s.data.dropWhile pyIsSpace).reverse.dropWhile pyIsSpace).reverse)

/-- Python truthiness for the values that can appear inside a lookup-field
list. -/
def pyTruthy : PyVal → Bool
  | .int n => n ≠ 0
  | .float q => q ≠ 0
  | .str s => s ≠ ""
  | .boolV b => b
  | .noneV => false
  | .list l => ¬l.isEmpty
  | .dict kvs => ¬kvs.isEmpty

/-- Model of Python str(x) for the scalar values exercised here. Container
reprs are abbreviated; no theorem in this file evaluates them. -/
def pyStr : PyVal → String
  | .int n => toString n
  | .float q => toString q
  | .str s => s
  | .boolV b => if b then "True" else "False"
  | .noneV => "None"
  | .list _ => "[...]"
  | .dict _ => "\x7b...\x7d"

/-- Model of sep.join(parts) for a single-character separator string. -/
def joinSpace : List String → String
  | [] => ""
  | [s] => s
  | s :: rest => s ++ " " ++ joinSpace rest

/-- Model of s.replace(a, b) for single-character a and b. -/
def pyReplaceChar (s : String) (a b : Char) : String :=
  String.mk (s.data.map (fun c => if c = a then b else c))

/-- Embeds the filename derivation of webhook.py lines 198-209, starting from
the looked-up Client Name value (the caller passes the dict.get default,
the string Client, when the field is absent): lists are joined with single
spaces after dropping falsy elements (an empty list falls back to the
literal Client); the trimmed string is split on the single space character
and the last chunk is the surname (default Client when the trimmed string is
empty); spaces in the period label become hyphens. -/
def deriveFilename (client_name_val : PyVal) (report_month : String) : String :=
  let client_name : String :=
    match client_name_val with
    | .list l => if l.isEmpty then "Client" else joinSpace ((l.filter pyTruthy).map pyStr)
    | v => pyStr v
  let last_name : String :=
    if pyStrip client_name = "" then "Client"
    else String.mk ((splitChar ' ' (pyStrip client_name).data).getLastD [])
  let safe_report_month := pyReplaceChar report_month ' ' '-'
  last_name ++ "_" ++ safe_report_month ++ ".html"

/-- The dot-html suffix as a character list. -/
def htmlExt : List Char := ['.', 'h', 't', 'm', 'l']

/-- Embeds GitHubService sanitize-filename (github.py lines 129-146): replace
spaces and forward slashes with underscores (successive single-character
str.replace calls act characterwise), then append the dot-html extension when
it is missing. No other character is touched and nothing is truncated. -/
def GitHubService.sanitize_filename (filename : String) : String :=
  let safe := filename.data.map (fun c => if c = ' ' then '_' else if c = '/' then '_' else c)
  String.mk (if List.isSuffixOf htmlExt safe then safe else safe ++ htmlExt)

/-- The unsafe characters replaced by the validators module. -/
def unsafeChars : List Char := ['/', '\\', ':', '*', '?', '"', '<', '>', '|']

/-- Embeds sanitize_filename from utils/validators.py lines 90-115: replace
each of the nine unsafe characters with an underscore (the successive
str.replace calls act characterwise and never reintroduce an unsafe
character), strip leading and trailing spaces and dots, and truncate to 100
characters. Spaces are not replaced and no extension is enforced. -/
def sanitize_filename (filename : String) : String :=
  let safe := filename.data.map (fun c => if unsafeChars.contains c then '_' else c)
  let stripped := ((safe.dropWhile (fun c => c = ' ' || c = '.')).reverse.dropWhile
    (fun c => c = ' ' || c = '.')).reverse
  String.mk (if 100 < stripped.length then stripped.take 100 else stripped)

/-- A file stored at the GitHub contents API: its content and its revision
token (the sha GitHub reports for that blob), modelled as an opaque counter
value issued by the host. -/
structure GHFile where
  content : String
  sha : Nat
deriving DecidableEq

/-- The file host: path-addressed files plus a counter from which fresh
revision tokens are issued. -/
structure GHHost where
  files : List (String × GHFile)
  counter : Nat
deriving DecidableEq

/-- First file stored at a path, if any. -/
def GHHost.lookupFile (h : GHHost) (p : String) : Option GHFile :=
  (h.files.find? (fun kv => kv.1 == p)).map (fun kv => kv.2)

/-- Embeds GitHubService get-file-sha (github.py lines 106-127): a GET of the
path returning the sha when the file exists, and None on any miss or error. -/
def GitHubService.get_file_sha (h : GHHost) (file_path : String) : Option Nat :=
  (h.lookupFile file_path).map (fun f => f.sha)

/-- Semantics of the GitHub contents PUT used by upload_report: create when no
sha is supplied and the path is empty (201); update when the supplied sha
matches the current revision (200); 409 on a sha mismatch and 422 when the
create/update mode contradicts the path state. Returns the new host and the
HTTP status. -/
def ghPutContents (h : GHHost) (p content : String) (sha? : Option Nat) :
    GHHost × Nat :=
  match h.lookupFile p, sha? with
  | Option.none, Option.none =>
    (⟨(p, ⟨content, h.counter⟩) :: h.files, h.counter + 1⟩, 201)
  | some f, some s =>
    if s = f.sha then (⟨(p, ⟨content, h.counter⟩) :: h.files, h.counter + 1⟩, 200)
    else (h, 409)
  | some _, Option.none => (h, 422)
  | Option.none, some _ => (h, 422)

/-- Embeds GitHubService upload_report (github.py lines 44-104): sanitize the
filename, compose the full path, read any existing revision token, PUT the
content carrying that token exactly when one was found, raise unless the
status is 200 or 201, and return the custom-domain URL. The third component
of the result records the revision token the PUT request carried, so that
theorems can speak about the create-versus-replace signal. -/
def GitHubService.upload_report (h : GHHost) (content filename path : String) :
    Except PyErr (GHHost × String × Option Nat) :=
  let safe_filename := GitHubService.sanitize_filename filename
  let file_path := path ++ "/" ++ safe_filename
  let existing_sha := GitHubService.get_file_sha h file_path
  let (h2, status) := ghPutContents h file_path content existing_sha
  if status = 201 ∨ status = 200 then
    .ok (h2, "https://app.agentinsider.co/" ++ file_path, existing_sha)
  else
    .error (.uploadFailed status)

/-- Model of Python startswith for string values. -/
def pyStartsWith (pre s : String) : Bool :=
  List.isPrefixOf pre.data s.data

/-- Lexicographic order on dates (the order Python datetime comparison uses). -/
def dateLT (a b : PyDate) : Bool :=
  a.year < b.year
  || (a.year = b.year && a.month < b.month)
  || (a.year = b.year && a.month = b.month && a.day < b.day)

/-- Errors appended by the required-fields loop of validators.py lines 21-29,
in loop order. -/
def missingFieldErrors (payload : List (String × PyVal)) : List String :=
  (if (pyLookup payload "MySFDomainReportRecordID").isNone
    then ["Missing required field: MySFDomainReportRecordID"] else [])
  ++ (if (pyLookup payload "DateStart").isNone
    then ["Missing required field: DateStart"] else [])
  ++ (if (pyLookup payload "DateEnd").isNone
    then ["Missing required field: DateEnd"] else [])

/-- Error appended by the record-id check of validators.py lines 31-35: when
the field is present it must be a string starting with rec. -/
def recordIdErrors (payload : List (String × PyVal)) : List String :=
  match pyLookup payload "MySFDomainReportRecordID" with
  | Option.none => []
  | some (.str s) =>
    if pyStartsWith "rec" s then [] else ["Invalid MySFDomainReportRecordID format"]
  | some _ => ["Invalid MySFDomainReportRecordID format"]

/-- One pass of the date-format loop of validators.py lines 37-43 for a single
field: absent fields are skipped, a string that fails strptime contributes the
format error (the ValueError is caught), and a non-string value makes strptime
raise TypeError, which the except ValueError clause does NOT catch, so the
whole validator raises. -/
def dateFieldCheck (payload : List (String × PyVal)) (date_field : String) :
    Except PyErr (List String) :=
  match pyLookup payload date_field with
  | Option.none => .ok []
  | some (.str s) =>
    .ok (if (parseYMD s).isNone
      then ["Invalid date format for " ++ date_field ++ ". Expected: YYYY-MM-DD"] else [])
  | some _ => .error .typeError

/-- Error appended by the date-range check of validators.py lines 45-54: when
both fields are present and both parse, DateStart must not exceed DateEnd; a
ValueError is swallowed. A non-string date never reaches this check because
the format loop has already raised, so those arms contribute nothing. -/
def rangeErrors (payload : List (String × PyVal)) : List String :=
  match pyLookup payload "DateStart", pyLookup payload "DateEnd" with
  | some (.str s1), some (.str s2) =>
    match parseYMD s1, parseYMD s2 with
    | some d1, some d2 =>
      if dateLT d2 d1 then ["DateStart must be before or equal to DateEnd"] else []
    | _, _ => []
  | _, _ => []

/-- One pass of the array-fields loop of validators.py lines 56-63: a present
field must be a list, and a non-empty one. -/
def arrayFieldCheck (payload : List (String × PyVal)) (f : String) : List String :=
  match pyLookup payload f with
  | Option.none => []
  | some (.list l) => if l.isEmpty then [f ++ " array cannot be empty"] else []
  | some _ => [f ++ " must be an array"]

/-- Embeds validate_webhook_payload (validators.py lines 8-65): the error
lists of the five independent rule groups are concatenated in source order;
the date-format loop can raise TypeError on a non-string date value, which
aborts the whole call (the errors gathered before the raise are discarded,
so hoisting the raising step is observationally equal). -/
def validate_webhook_payload (payload : List (String × PyVal)) :
    Except PyErr (List String) :=
  (dateFieldCheck payload "DateStart").bind fun e3a =>
  (dateFieldCheck payload "DateEnd").bind fun e3b =>
  Except.ok (missingFieldErrors payload ++ recordIdErrors payload
    ++ e3a ++ e3b ++ rangeErrors payload ++ arrayFieldCheck payload "AccountID"
    ++ arrayFieldCheck payload "CarrierCompany")

/-- Embeds the payload-unwrapping prologue of handle_webhook (webhook.py
lines 44-52): a non-empty JSON list is replaced by its first element; the
result must be a dict, otherwise the request is rejected with the 400 error
string and no pipeline step runs (the error arm of the Except is returned
before validation or processing is invoked). -/
def extract_payload (j : PyVal) : Except String (List (String × PyVal)) :=
  let payload := match j with
    | .list (x :: _) => x
    | other => other
  match payload with
  | .dict kvs => .ok kvs
  | _ => .error "Invalid payload format"

/-- Numeric metrics dictionary as consumed by the renderer's ratio
computations (report_html.py works on metrics.get with numeric defaults). -/
def metricsGetNum (m : List (String × Rat)) (key : String) (dflt : Rat) : Rat :=
  match m with
  | [] => dflt
  | (k, v) :: rest => if k = key then v else metricsGetNum rest key dflt

/-- Python division on numbers: raises ZeroDivisionError on a zero divisor. -/
def pyDivNum (a b : Rat) : Except PyErr Rat :=
  if b = 0 then .error .zeroDivisionError else .ok (a / b)

/-- Embeds the cost_per_click expression of report_html.py line 36:
Cost / Clicks-with-default-1 when Clicks-with-default-0 is positive, else 0. -/
def cost_per_click (m : List (String × Rat)) : Except PyErr Rat :=
  if 0 < metricsGetNum m "Clicks" 0 then
    pyDivNum (metricsGetNum m "Cost" 0) (metricsGetNum m "Clicks" 1)
  else .ok 0

/-- Embeds the conversion_rate expression of report_html.py line 38. -/
def conversion_rate (m : List (String × Rat)) : Except PyErr Rat :=
  if 0 < metricsGetNum m "Clicks" 0 then
    (pyDivNum (metricsGetNum m "Conversions" 0) (metricsGetNum m "Clicks" 1)).map
      (fun r => r * 100)
  else .ok 0

/-- Embeds the phone_rate expression of report_html.py line 146. -/
def phone_rate (m : List (String × Rat)) : Except PyErr Rat :=
  if 0 < metricsGetNum m "Clicks" 0 then
    (pyDivNum (metricsGetNum m "Phone Clicks" 0) (metricsGetNum m "Clicks" 1)).map
      (fun r => r * 100)
  else .ok 0

/-- The number of required positional parameters of
ReportTemplate.generate_report (report_html.py lines 11-19: metrics,
account_id, carrier_company, date_start, date_end; additional_data has a
default). -/
def generate_report_required_positional : Nat := 5

/-- The number of positional arguments process_report passes to
ReportTemplate.generate_report (webhook.py lines 192-194: template_data
only). -/
def render_call_supplied_positional : Nat := 1

/-- Python call binding: when fewer positional arguments are supplied than
there are required parameters, the call raises TypeError before the callee
body runs; the body placeholder is only reached otherwise. -/
def pyCallPositional (supplied required : Nat) (body : α) : Except PyErr α :=
  if supplied < required then .error .typeError else .ok body

/-- The result dictionary process_report returns on success (webhook.py lines
222-227). The processing_time entry is a wall-clock timestamp, modelled as an
opaque unit value. -/
structure ProcResult where
  report_url : String
  record_id : String
  metrics : TemplateData
  processing_time : Unit

/-- Embeds process_report (webhook.py lines 100-230): fetch the record (a
falsy result - None or an empty dict - raises ValueError), take its fields
dict (defaulting to empty when absent; a non-dict fields value would make the
subsequent attribute access raise), derive report_month, normalize metrics,
call ReportTemplate.generate_report with one positional argument where five
are required, upload the rendered page, back-write the URL (the external
record store update is modelled as succeeding), and assemble the result. -/
def process_report (report_id date_start date_end : String)
    (record? : Option (List (String × PyVal))) (host : GHHost) :
    Except PyErr ProcResult :=
  match record? with
  | Option.none => .error .valueError
  | some record =>
    if record.isEmpty then .error .valueError
    else
      (match pyLookup record "fields" with
        | some (.dict f) => Except.ok f
        | some _ => Except.error PyErr.attributeError
        | Option.none => Except.ok []).bind fun fields =>
      let report_month := reportMonthOf date_start date_end
      (buildTemplateData fields report_month).bind fun template_data =>
      (pyCallPositional render_call_supplied_positional
        generate_report_required_positional "").bind fun html_content =>
      let filename := deriveFilename (pyGet fields "Client Name" (.str "Client"))
        report_month
      (GitHubService.upload_report host html_content filename "reports").bind fun up =>
      Except.ok ⟨up.2.1, report_id, template_data, ()⟩

/-- The record fixture the repository's own tests feed process_report
through a mocked record store (the first case of test_report_month_logic.py;
test_webhook.py uses the same metric values). -/
def demoRecordFields : List (String × PyVal) :=
  [("Cost (from Keyword Performance)", .int 100),
   ("Phone Clicks (from Keyword Performance)", .int 10),
   ("SMS Clicks (from Keyword Performance)", .int 5),
   ("Quote Starts (from Keyword Performance)", .int 2),
   ("Conversions (from Keyword Performance)", .int 1),
   ("Client Name", .list [.str "Jane Doe"])]

/-- Claim-side surname for C7: the last whitespace-delimited token of a
string (split on any whitespace, empty chunks dropped). -/
def splitPred (p : Char → Bool) : List Char → List (List Char)
  | [] => [[]]
  | c :: rest =>
    match splitPred p rest with
    | [] => [[c]]
    | g :: gs => if p c then [] :: g :: gs else (c :: g) :: gs

/-- Claim-side definition: the last whitespace-delimited token of a string. -/
def lastWhitespaceToken (s : String) : String :=
  String.mk (((splitPred pyIsSpace s.data).filter
    (fun t => ¬ t.isEmpty)).getLastD [])

/-- The last space-delimited chunk of a string (split on the single space
character, keeping empty chunks, as Python split with an explicit space
separator does). -/
def lastSpaceToken (s : String) : String :=
  String.mk ((splitChar ' ' s.data).getLastD [])

/-- Claim-side joined client name for C7 over the claim's input shapes:
absent, a plain string, or a list of strings whose non-empty elements are
joined with single spaces. -/
def specJoinedName : Option (Sum String (List String)) → String
  | Option.none => ""
  | some (Sum.inl s) => s
  | some (Sum.inr l) => joinSpace (l.filter (fun x => x ≠ ""))

/-- Claim-side surname for C7, amended: the last SPACE-delimited token of the
trimmed joined name, defaulting to Client when the trimmed name is empty. -/
def specSurnameSpace (n : Option (Sum String (List String))) : String :=
  let j := pyStrip (specJoinedName n)
  if j = "" then "Client" else lastSpaceToken j

/-- True exactly for dict values. -/
def isDictB : PyVal → Bool
  | .dict _ => true
  | _ => false

/-- Claim-side acceptance condition for C10 as written: the body is a dict,
or a non-empty list all of whose elements are dicts. -/
def claimAccepts (j : PyVal) : Bool :=
  isDictB j || (match j with
    | .list l => !l.isEmpty && l.all isDictB
    | _ => false)

/-- Amended acceptance condition: the body is a dict, or a non-empty list
whose FIRST element is a dict (the handler only inspects the first element). -/
def amendedAccepts (j : PyVal) : Bool :=
  isDictB j || (match j with
    | .list (x :: _) => isDictB x
    | _ => false)

/-- True when an optional payload value is absent or a string (the shapes for
which the validator's date loop does not raise). -/
def strOrAbsent : Option PyVal → Bool
  | Option.none => true
  | some (.str _) => true
  | some _ => false

/-- Both date fields are absent or strings. -/
def datesAreStrings (payload : List (String × PyVal)) : Bool :=
  strOrAbsent (pyLookup payload "DateStart")
  && strOrAbsent (pyLookup payload "DateEnd")

/-- Spec rule: the record id is present, a string, and starts with rec. -/
def recFieldOk : Option PyVal → Bool
  | some (.str s) => pyStartsWith "rec" s
  | _ => false

/-- Spec rule: a date field is present and parses as YYYY-MM-DD. -/
def dateFieldOkSpec : Option PyVal → Bool
  | some (.str s) => (parseYMD s).isSome
  | _ => false

/-- Spec rule: when both dates parse, the start does not exceed the end. -/
def orderOkSpec (payload : List (String × PyVal)) : Bool :=
  match pyLookup payload "DateStart", pyLookup payload "DateEnd" with
  | some (.str s1), some (.str s2) =>
    match parseYMD s1, parseYMD s2 with
    | some d1, some d2 => !(dateLT d2 d1)
    | _, _ => true
  | _, _ => true

/-- Spec rule: a present optional lookup field must be a non-empty array. -/
def arrayFieldOkSpec : Option PyVal → Bool
  | Option.none => true
  | some (.list l) => !l.isEmpty
  | some _ => false

/-- Spec-side validity of a webhook payload, written from the rules of
section 4.1 of the specification: all three required fields present, the
record id well formed, both dates parseable, the range ordered, and the
optional array fields non-empty when present. -/
def payload_valid_spec (payload : List (String × PyVal)) : Bool :=
  recFieldOk (pyLookup payload "MySFDomainReportRecordID")
  && dateFieldOkSpec (pyLookup payload "DateStart")
  && dateFieldOkSpec (pyLookup payload "DateEnd")
  && orderOkSpec payload
  && arrayFieldOkSpec (pyLookup payload "AccountID")
  && arrayFieldOkSpec (pyLookup payload "CarrierCompany")

/-- The error list the date-format loop contributes for one field when it
does not raise. -/
def dfErrList (o : Option PyVal) (date_field : String) : List String :=
  match o with
  | some (.str s) =>
    if (parseYMD s).isNone
    then ["Invalid date format for " ++ date_field ++ ". Expected: YYYY-MM-DD"]
    else []
  | _ => []

/-- Record id rule satisfied-if-present (used to factor validity). -/
def ridOkIfPresent : Option PyVal → Bool
  | Option.none => true
  | some (.str s) => pyStartsWith "rec" s
  | some _ => false

/-- Date rule satisfied-if-present for string-or-absent values. -/
def dateOkIfPresent : Option PyVal → Bool
  | some (.str s) => (parseYMD s).isSome
  | _ => true


theorem round_up_int (n : Int) : round_up (.int n) = .int n := by
  simp [round_up, pyFloat, Int.ceil_intCast]

theorem round_up_float (q : Rat) : round_up (.float q) = .int ⌈q⌉ := by
  simp [round_up, pyFloat]

theorem round_up_of_ok (v : PyVal) (x : Rat) (h : pyFloat v = .ok x) :
    round_up v = .int ⌈x⌉ := by
  simp [round_up, h]

/-- C1: the claim states that for every validated event whose record exists
and whose publish and back-write succeed, process_report completes the
pipeline and returns the result dictionary. The code cannot: the render step
calls ReportTemplate.generate_report with one positional argument where the
signature requires five, so the call raises TypeError and process_report
never returns a success value; in particular it raises TypeError on the very
record the repository's own local test feeds it. -/
theorem process_report_never_succeeds :
    (∀ report_id date_start date_end record? host,
      ∃ e, process_report report_id date_start date_end record? host
        = .error e)
    ∧ process_report "rec123" "2025-06-01" "2025-06-30"
        (some [("fields", .dict demoRecordFields)]) ⟨[], 0⟩
      = .error .typeError := by
  constructor
  · intro report_id date_start date_end record? host
    cases record? with
    | none => exact ⟨.valueError, rfl⟩
    | some record =>
      by_cases hrec : record.isEmpty
      · exact ⟨.valueError, by simp [process_report, hrec]⟩
      · cases hf : pyLookup record "fields" with
        | none =>
          cases hb : buildTemplateData [] (reportMonthOf date_start date_end) with
          | ok td =>
            exact ⟨.typeError, by
              simp [process_report, hrec, hf, hb, Except.bind, pyCallPositional,
                render_call_supplied_positional, generate_report_required_positional]⟩
          | error e =>
            exact ⟨e, by simp [process_report, hrec, hf, hb, Except.bind]⟩
        | some v =>
          cases v with
          | dict fields =>
            cases hb : buildTemplateData fields (reportMonthOf date_start date_end) with
            | ok td =>
              exact ⟨.typeError, by
                simp [process_report, hrec, hf, hb, Except.bind, pyCallPositional,
                  render_call_supplied_positional, generate_report_required_positional]⟩
            | error e =>
              exact ⟨e, by simp [process_report, hrec, hf, hb, Except.bind]⟩
          | int n => exact ⟨.attributeError, by simp [process_report, hrec, hf, Except.bind]⟩
          | float q => exact ⟨.attributeError, by simp [process_report, hrec, hf, Except.bind]⟩
          | str s => exact ⟨.attributeError, by simp [process_report, hrec, hf, Except.bind]⟩
          | boolV b => exact ⟨.attributeError, by simp [process_report, hrec, hf, Except.bind]⟩
          | noneV => exact ⟨.attributeError, by simp [process_report, hrec, hf, Except.bind]⟩
          | list l => exact ⟨.attributeError, by simp [process_report, hrec, hf, Except.bind]⟩
  · with_unfolding_all rfl

/-- C2 counterexample: with raw cost 601 and raw quote starts 300 (the other
lead metrics absent), totalLeads is 300 and the code computes
ceil(round(601/300, 2)) = ceil(2.0) = 2, while the ceiling of the quotient
itself is 3. -/
theorem cost_per_lead_rounds_before_ceiling :
    (buildTemplateData
      [("Cost (from Keyword Performance)", .int 601),
       ("Quote Starts (from Keyword Performance)", .int 300)] "x").map
      (fun td => td.cost_per_lead) = .ok (.int 2)
    ∧ (⌈(601 : Rat) / 300⌉ : Int) = 3
    ∧ (2 : Int) ≠ 3 := by
  refine ⟨by with_unfolding_all rfl, ?_, by decide⟩
  rw [Int.ceil_eq_iff]
  norm_num

/-- C2 amended: for integer raw metrics, costPerLead equals the ceiling of
the quotient first rounded half-to-even at two decimal places (Python round
to 2 digits) when totalLeads is nonzero, and 0 when totalLeads is 0; the
documented instance cost 100 over totalLeads 18 still yields 6. -/
theorem cost_per_lead_formula :
    (∀ c q p s v : Int, ∀ label : String,
      (buildTemplateDataVals (.int c) (.int p) (.int s) (.int q) (.int v)
          label).map (fun td => td.cost_per_lead)
      = .ok (.int (if q + p + s + v = 0 then 0
          else ⌈pyRound2 ((c : Rat) / ((q + p + s + v : Int) : Rat))⌉)))
    ∧ (buildTemplateData demoRecordFields "June 2025").map
        (fun td => td.cost_per_lead) = .ok (.int 6) := by
  constructor
  · intro c q p s v label
    simp only [buildTemplateDataVals, round_up_int, pyAdd, Except.bind, Except.map,
      costPerLeadRat, pyFloat]
    by_cases hT : q + p + s + v = 0
    · simp [hT, round_up_float]
    · have hT2 : ((q + p + s + v : Int) : Rat) ≠ 0 := by
        exact_mod_cast hT
      push_cast at hT2
      simp [hT, hT2, round_up_float]
  · with_unfolding_all rfl

/-- C3 counterexample: a non-numeric raw metric is NOT coerced to 0: round_up
returns the string unchanged, and summing it with the numeric defaults of the
other lead metrics raises TypeError, so the normalization step throws on the
raw quote-starts value abc. -/
theorem normalize_raises_on_non_numeric :
    buildTemplateData
      [("Quote Starts (from Keyword Performance)", .str "abc")] "x"
      = .error .typeError
    ∧ round_up (.str "abc") = .str "abc" := ⟨rfl, rfl⟩

/-- Supporting fact for the C3 amendment: not every non-coercible raw value
makes normalization raise - a non-coercible Cost flows through (its
ValueError inside the cost_per_lead try is swallowed, degrading costPerLead
to 0), and four non-coercible string lead metrics concatenate into a string
totalLeads instead of raising; only mixing non-coercible and numeric lead
values in the sum raises. -/
theorem normalize_non_coercible_flow :
    (buildTemplateData
      [("Cost (from Keyword Performance)", .str "abc"),
       ("Phone Clicks (from Keyword Performance)", .int 10),
       ("SMS Clicks (from Keyword Performance)", .int 5),
       ("Quote Starts (from Keyword Performance)", .int 2),
       ("Conversions (from Keyword Performance)", .int 1)] "x").map
      (fun td => (td.cost, td.total_leads, td.cost_per_lead))
      = .ok (.str "abc", .int 18, .int 0)
    ∧ (buildTemplateData
      [("Cost (from Keyword Performance)", .int 7),
       ("Quote Starts (from Keyword Performance)", .str "a"),
       ("Phone Clicks (from Keyword Performance)", .str "b"),
       ("SMS Clicks (from Keyword Performance)", .str "c"),
       ("Conversions (from Keyword Performance)", .str "d")] "x").map
      (fun td => td.total_leads)
      = .ok (.str "abcd") := by
  refine ⟨by with_unfolding_all rfl, by with_unfolding_all rfl⟩

/-- C3 amended: when every raw metric value is float-coercible (numeric, or a
numeric-looking string; absent fields default to the integer 0 and are
coercible), normalization never throws and every metric in the template data
is an integer, with totalLeads the sum of the four rounded lead metrics. A
non-coercible value instead survives round_up unchanged rather than becoming
0, so normalization is not total: summing such a value with numeric lead
metrics raises TypeError (the counterexample), while other non-coercible
shapes flow through without raising (see the flow theorem below). -/
theorem normalize_total_on_coercible :
    ∀ c0 p0 s0 q0 v0 : PyVal, ∀ label : String,
      (∃ x, pyFloat c0 = .ok x) → (∃ x, pyFloat p0 = .ok x) →
      (∃ x, pyFloat s0 = .ok x) → (∃ x, pyFloat q0 = .ok x) →
      (∃ x, pyFloat v0 = .ok x) →
      ∃ cost phone sms quote conv cpl : Int,
        buildTemplateDataVals c0 p0 s0 q0 v0 label
          = .ok ⟨label, .int (quote + phone + sms + conv), .int conv, .int cost,
              .int cpl, .int quote, .int phone, .int sms⟩ := by
  intro c0 p0 s0 q0 v0 label hc hp hs hq hv
  obtain ⟨xc, hxc⟩ := hc
  obtain ⟨xp, hxp⟩ := hp
  obtain ⟨xs, hxs⟩ := hs
  obtain ⟨xq, hxq⟩ := hq
  obtain ⟨xv, hxv⟩ := hv
  refine ⟨⌈xc⌉, ⌈xp⌉, ⌈xs⌉, ⌈xq⌉, ⌈xv⌉,
    ⌈costPerLeadRat (.int ⌈xc⌉) (.int (⌈xq⌉ + ⌈xp⌉ + ⌈xs⌉ + ⌈xv⌉))⌉, ?_⟩
  simp [buildTemplateDataVals, round_up_of_ok _ _ hxc, round_up_of_ok _ _ hxp,
    round_up_of_ok _ _ hxs, round_up_of_ok _ _ hxq, round_up_of_ok _ _ hxv,
    pyAdd, Except.bind, round_up_float]

theorem normalize_total_on_coercible_w :
    ∃ cost phone sms quote conv cpl : Int,
      buildTemplateDataVals (.str "100.5") (.int 2) (.float (7/2)) (.str " 4 ")
          (.boolV true) "L"
        = .ok ⟨"L", .int (quote + phone + sms + conv), .int conv, .int cost,
            .int cpl, .int quote, .int phone, .int sms⟩ :=
  normalize_total_on_coercible (.str "100.5") (.int 2) (.float (7/2))
    (.str " 4 ") (.boolV true) "L"
    ⟨201/2, by with_unfolding_all rfl⟩ ⟨2, rfl⟩ ⟨7/2, rfl⟩
    ⟨4, by with_unfolding_all rfl⟩ ⟨1, rfl⟩

theorem parseYMD_bounds (s : String) (d : PyDate) (h : parseYMD s = some d) :
    1 ≤ d.month ∧ d.month ≤ 12 ∧ 1 ≤ d.year := by
  unfold parseYMD at h
  split at h
  · split at h
    · rename_i hcond
      cases h
      obtain ⟨-, -, hy, -, -, hma, hmb, -⟩ := hcond
      exact ⟨hma, hmb, hy⟩
    · cases h
  · cases h

theorem datePred_next_month (d : PyDate) (h1 : 1 ≤ d.month) (h2 : d.month ≤ 12) :
    datePred (if d.month = 12 then ⟨d.year + 1, 1, 1⟩ else ⟨d.year, d.month + 1, 1⟩)
      = ⟨d.year, d.month, daysInMonth d.year d.month⟩ := by
  by_cases hm : d.month = 12
  · simp [hm, datePred, daysInMonth]
  · have hm1 : ¬ d.month + 1 = 1 := by omega
    simp [hm, datePred, hm1]

/-- C5: when both dates parse, the label is the long month name and the
4-digit year exactly when the start date is the first day of its month and
the end date is its last day under the Gregorian table (February 29 only in
leap years, since the code computes the last day as the day before the first
of the next month); otherwise it is the zero-padded m-d-Y range; and when
either date fails to parse, the label is the raw start-end concatenation. -/
theorem report_month_label :
    (∀ ds de s e, parseYMD ds = some s → parseYMD de = some e →
      reportMonthOf ds de =
        (if s.day = 1 ∧ e = ⟨s.year, s.month, daysInMonth s.year s.month⟩
         then monthName s.month ++ " " ++ pad4 s.year
         else mdyStr s ++ "-" ++ mdyStr e))
    ∧ (∀ ds de, parseYMD ds = Option.none ∨ parseYMD de = Option.none →
        reportMonthOf ds de = ds ++ "-" ++ de) := by
  constructor
  · intro ds de s e hs he
    obtain ⟨hm1, hm2, _⟩ := parseYMD_bounds ds s hs
    unfold reportMonthOf
    rw [hs, he]
    dsimp only
    rw [datePred_next_month s hm1 hm2]
    have hfirst : (s = (⟨s.year, s.month, 1⟩ : PyDate)) ↔ s.day = 1 := by
      cases s; simp_all
    simp only [hfirst]
  · intro ds de h
    unfold reportMonthOf
    rcases h with h | h
    · rw [h]
    · rw [h]
      cases parseYMD ds <;> rfl

theorem report_month_label_w :
    reportMonthOf "2024-02-01" "2024-02-29" = "February 2024"
    ∧ reportMonthOf "2025-02-01" "2025-02-28" = "February 2025"
    ∧ reportMonthOf "2025-06-01" "2025-06-15" = "06-01-2025-06-15-2025"
    ∧ reportMonthOf "junk" "2025-06-30" = "junk-2025-06-30" := by
  refine ⟨?_, ?_, ?_, ?_⟩
  · rw [report_month_label.1 "2024-02-01" "2024-02-29" ⟨2024, 2, 1⟩ ⟨2024, 2, 29⟩
      (by decide) (by decide)]
    decide
  · rw [report_month_label.1 "2025-02-01" "2025-02-28" ⟨2025, 2, 1⟩ ⟨2025, 2, 28⟩
      (by decide) (by decide)]
    decide
  · rw [report_month_label.1 "2025-06-01" "2025-06-15" ⟨2025, 6, 1⟩ ⟨2025, 6, 15⟩
      (by decide) (by decide)]
    decide
  · rw [report_month_label.2 "junk" "2025-06-30" (Or.inl (by decide))]
    decide

set_option maxRecDepth 4000 in
/-- C6 counterexample: the Publisher's own sanitizer leaves a colon (one of
the claimed path-unsafe characters) untouched, so the claimed replacement
set is wrong, and a 120-character name is not truncated to 100. -/
theorem publisher_sanitize_partial :
    GitHubService.sanitize_filename ":" = ":.html"
    ∧ (":.html" : String) ≠ "_.html"
    ∧ 100 < (GitHubService.sanitize_filename
        (String.mk (List.replicate 120 'a'))).length := by
  refine ⟨by decide, by decide, by decide⟩

theorem string_mk_data (l : List Char) : (String.mk l).data = l := rfl

/-- C6 amended: the Publisher's sanitizer only replaces spaces and forward
slashes with underscores and enforces the dot-html suffix, never shortening
its input; the full rule set lives in the separate validators utility, whose
output contains none of the nine unsafe characters and is truncated to at
most 100 characters (it enforces no extension and keeps interior spaces). -/
theorem sanitize_behaviors :
    (∀ s, ∃ t, (GitHubService.sanitize_filename s).data = t ++ htmlExt)
    ∧ (∀ s, ∀ c, c ∈ (GitHubService.sanitize_filename s).data →
        c ≠ ' ' ∧ c ≠ '/')
    ∧ (∀ s : String, s.length ≤ (GitHubService.sanitize_filename s).length)
    ∧ (∀ s, (sanitize_filename s).length ≤ 100)
    ∧ (∀ s, ∀ c, c ∈ (sanitize_filename s).data → c ∉ unsafeChars) := by
  have hmapsafe : ∀ (s : String) (c : Char),
      c ∈ s.data.map (fun c => if c = ' ' then '_' else if c = '/' then '_' else c) →
      c ≠ ' ' ∧ c ≠ '/' := by
    intro s c hc
    obtain ⟨x, _, rfl⟩ := List.mem_map.mp hc
    split_ifs with h1 h2
    · exact ⟨by decide, by decide⟩
    · exact ⟨by decide, by decide⟩
    · exact ⟨h1, h2⟩
  refine ⟨?_, ?_, ?_, ?_, ?_⟩
  · intro s
    unfold GitHubService.sanitize_filename
    by_cases h : List.isSuffixOf htmlExt
        (s.data.map (fun c => if c = ' ' then '_' else if c = '/' then '_' else c))
    · obtain ⟨t, ht⟩ := List.isSuffixOf_iff_suffix.mp h
      exact ⟨t, by simp [h, string_mk_data, ht.symm]⟩
    · exact ⟨s.data.map (fun c => if c = ' ' then '_' else if c = '/' then '_' else c),
        by simp [h, string_mk_data]⟩
  · intro s c hc
    unfold GitHubService.sanitize_filename at hc
    rw [string_mk_data] at hc
    split at hc
    · exact hmapsafe s c hc
    · rcases List.mem_append.mp hc with h | h
      · exact hmapsafe s c h
      · fin_cases h <;> exact ⟨by decide, by decide⟩
  · intro s
    show s.data.length ≤ _
    unfold GitHubService.sanitize_filename
    dsimp only
    rw [show ∀ l : List Char, (String.mk l).length = l.length from fun _ => rfl]
    split
    · simp
    · simp
  · intro s
    show (sanitize_filename s).data.length ≤ 100
    unfold sanitize_filename
    rw [string_mk_data]
    split
    · simp
    · omega
  · intro s c hc
    unfold sanitize_filename at hc
    rw [string_mk_data] at hc
    have hstripped : ∀ d, d ∈ ((((s.data.map (fun c => if unsafeChars.contains c
        then '_' else c)).dropWhile (fun c => c = ' ' || c = '.')).reverse.dropWhile
        (fun c => c = ' ' || c = '.')).reverse) →
        d ∈ s.data.map (fun c => if unsafeChars.contains c then '_' else c) := by
      intro d hd
      rw [List.mem_reverse] at hd
      have hd2 := List.dropWhile_subset _ hd
      rw [List.mem_reverse] at hd2
      exact List.dropWhile_subset _ hd2
    have hc2 : c ∈ s.data.map (fun c => if unsafeChars.contains c then '_' else c) := by
      split at hc
      · exact hstripped c (List.take_subset _ _ hc)
      · exact hstripped c hc
    obtain ⟨x, _, rfl⟩ := List.mem_map.mp hc2
    by_cases hx : unsafeChars.contains x = true
    · rw [if_pos hx]
      decide
    · rw [if_neg hx]
      intro hmem
      exact hx (List.elem_iff.mpr hmem)

/-- C7 counterexample: for the list client name containing the single string
Jane-tab-Doe, the code splits only on the space character, so the derived
filename keeps the whole string as the surname, while the claimed
last-whitespace-delimited-token rule would give Doe. -/
theorem derive_filename_tab :
    deriveFilename (.list [.str "Jane\tDoe"]) "June 2025"
      = "Jane\tDoe_June-2025.html"
    ∧ lastWhitespaceToken "Jane\tDoe" = "Doe"
    ∧ ("Jane\tDoe_June-2025.html" : String) ≠ "Doe_June-2025.html" := by
  refine ⟨by decide, by decide, by decide⟩

theorem pyTruthy_str_filter (l : List String) :
    ((l.map PyVal.str).filter pyTruthy).map pyStr = l.filter (fun x => x ≠ "") := by
  induction l with
  | nil => rfl
  | cons a rest ih =>
    by_cases ha : a = ""
    · simp [ha, pyTruthy, List.filter_cons, ih]
    · simp [List.filter_cons, pyTruthy, ha, pyStr, ih]

/-- C7 amended: the derived filename is surname underscore hyphenated-label
dot-html where the surname is the last SPACE-delimited token (other
whitespace such as tabs is not a separator) of the trimmed client name - the
joined non-empty elements for a list value, the string itself otherwise,
with Client as the default for an absent name or an empty trimmed name;
the documented instance still holds. -/
theorem derive_filename_space_semantics :
    (∀ s label, deriveFilename (.str s) label
      = specSurnameSpace (some (Sum.inl s)) ++ "_"
        ++ pyReplaceChar label ' ' '-' ++ ".html")
    ∧ (∀ l label, deriveFilename (.list (l.map PyVal.str)) label
      = specSurnameSpace (some (Sum.inr l)) ++ "_"
        ++ pyReplaceChar label ' ' '-' ++ ".html")
    ∧ (∀ label, deriveFilename (pyGet [] "Client Name" (.str "Client")) label
      = specSurnameSpace Option.none ++ "_"
        ++ pyReplaceChar label ' ' '-' ++ ".html")
    ∧ deriveFilename (.list [.str "Jane Doe"]) "June 2025" = "Doe_June-2025.html"
    ∧ deriveFilename (.list []) "June 2025" = "Client_June-2025.html" := by
  refine ⟨?_, ?_, ?_, by decide, by decide⟩
  · intro s label
    rfl
  · intro l label
    by_cases hl : l.isEmpty
    · have : l = [] := by cases l <;> simp_all
      subst this
      rfl
    · have hl2 : (l.map PyVal.str).isEmpty = false := by
        cases l <;> simp_all
      simp only [deriveFilename, hl2, Bool.false_eq_true, if_false,
        pyTruthy_str_filter, specSurnameSpace, specJoinedName, lastSpaceToken]
  · intro label
    rfl

theorem derive_filename_space_semantics_w :
    deriveFilename (.str "Jane Doe") "June 2025"
      = specSurnameSpace (some (Sum.inl "Jane Doe")) ++ "_"
        ++ pyReplaceChar "June 2025" ' ' '-' ++ ".html" :=
  derive_filename_space_semantics.1 "Jane Doe" "June 2025"

/-- C8: starting from a host with no file at the computed path, publishing
succeeds with no revision token in the request (create); after that first
write the host holds a token, and publishing again succeeds carrying exactly
that token (replace of that version). -/
theorem publish_twice_create_then_replace :
    ∀ (h : GHHost) (content filename path : String),
      GitHubService.get_file_sha h
        (path ++ "/" ++ GitHubService.sanitize_filename filename) = Option.none →
      ∃ h1 url t,
        GitHubService.upload_report h content filename path
          = .ok (h1, url, Option.none)
        ∧ GitHubService.get_file_sha h1
            (path ++ "/" ++ GitHubService.sanitize_filename filename) = some t
        ∧ ∃ h2 url2,
            GitHubService.upload_report h1 content filename path
              = .ok (h2, url2, some t) := by
  intro h content filename path hnone
  have hlook : h.lookupFile (path ++ "/" ++ GitHubService.sanitize_filename filename)
      = Option.none := by
    unfold GitHubService.get_file_sha at hnone
    exact Option.map_eq_none'.mp hnone
  refine ⟨⟨(path ++ "/" ++ GitHubService.sanitize_filename filename,
      ⟨content, h.counter⟩) :: h.files, h.counter + 1⟩,
    "https://app.agentinsider.co/" ++ (path ++ "/"
      ++ GitHubService.sanitize_filename filename), h.counter, ?_, ?_, ?_⟩
  · unfold GitHubService.upload_report
    dsimp only
    rw [hnone]
    simp [ghPutContents, hlook]
  · simp [GitHubService.get_file_sha, GHHost.lookupFile, List.find?]
  · refine ⟨⟨(path ++ "/" ++ GitHubService.sanitize_filename filename,
        ⟨content, h.counter + 1⟩) :: ((path ++ "/"
        ++ GitHubService.sanitize_filename filename,
        (⟨content, h.counter⟩ : GHFile)) :: h.files), h.counter + 1 + 1⟩,
      "https://app.agentinsider.co/" ++ (path ++ "/"
        ++ GitHubService.sanitize_filename filename), ?_⟩
    have hlook2 : GHHost.lookupFile ⟨(path ++ "/"
        ++ GitHubService.sanitize_filename filename,
        (⟨content, h.counter⟩ : GHFile)) :: h.files, h.counter + 1⟩
        (path ++ "/" ++ GitHubService.sanitize_filename filename)
        = some ⟨content, h.counter⟩ := by
      simp [GHHost.lookupFile, List.find?]
    have hsha2 : GitHubService.get_file_sha ⟨(path ++ "/"
        ++ GitHubService.sanitize_filename filename,
        (⟨content, h.counter⟩ : GHFile)) :: h.files, h.counter + 1⟩
        (path ++ "/" ++ GitHubService.sanitize_filename filename)
        = some h.counter := by
      simp [GitHubService.get_file_sha, hlook2]
    unfold GitHubService.upload_report
    dsimp only
    rw [hsha2]
    simp [ghPutContents, hlook2]

theorem publish_twice_create_then_replace_w :
    ∃ h1 url t,
      GitHubService.upload_report ⟨[], 0⟩ "content" "f" "reports"
        = .ok (h1, url, Option.none)
      ∧ GitHubService.get_file_sha h1
          ("reports" ++ "/" ++ GitHubService.sanitize_filename "f") = some t
      ∧ ∃ h2 url2,
          GitHubService.upload_report h1 "content" "f" "reports"
            = .ok (h2, url2, some t) :=
  publish_twice_create_then_replace ⟨[], 0⟩ "content" "f" "reports" rfl

theorem metricsGetNum_pos_divisor (m : List (String × Rat))
    (h : 0 < metricsGetNum m "Clicks" 0) :
    metricsGetNum m "Clicks" 1 = metricsGetNum m "Clicks" 0 := by
  induction m with
  | nil => simp [metricsGetNum] at h
  | cons kv rest ih =>
    obtain ⟨k, v⟩ := kv
    by_cases hk : k = "Clicks"
    · simp [metricsGetNum, hk]
    · simp only [metricsGetNum, if_neg hk] at h ⊢
      exact ih h

/-- C9: the three derived ratios of the report renderer are all guarded:
they never raise ZeroDivisionError for any numeric metrics dictionary, and
when the clicks value is zero or the key is missing (so the lookup yields
the default 0) each ratio renders as 0. -/
theorem renderer_ratios_guarded :
    ∀ m : List (String × Rat),
      (∃ a, cost_per_click m = .ok a)
      ∧ (∃ b, conversion_rate m = .ok b)
      ∧ (∃ c, phone_rate m = .ok c)
      ∧ (metricsGetNum m "Clicks" 0 = 0 →
          cost_per_click m = .ok 0 ∧ conversion_rate m = .ok 0
          ∧ phone_rate m = .ok 0) := by
  intro m
  by_cases hpos : 0 < metricsGetNum m "Clicks" 0
  · have hdiv : ¬ metricsGetNum m "Clicks" 1 = 0 := by
      rw [metricsGetNum_pos_divisor m hpos]
      exact ne_of_gt hpos
    have h1 : cost_per_click m
        = .ok (metricsGetNum m "Cost" 0 / metricsGetNum m "Clicks" 1) := by
      unfold cost_per_click pyDivNum
      rw [if_pos hpos, if_neg hdiv]
    have h2 : conversion_rate m
        = .ok (metricsGetNum m "Conversions" 0 / metricsGetNum m "Clicks" 1 * 100) := by
      unfold conversion_rate pyDivNum
      rw [if_pos hpos, if_neg hdiv]
      rfl
    have h3 : phone_rate m
        = .ok (metricsGetNum m "Phone Clicks" 0 / metricsGetNum m "Clicks" 1 * 100) := by
      unfold phone_rate pyDivNum
      rw [if_pos hpos, if_neg hdiv]
      rfl
    refine ⟨⟨_, h1⟩, ⟨_, h2⟩, ⟨_, h3⟩, fun h0 => ?_⟩
    rw [h0] at hpos
    exact absurd hpos (lt_irrefl 0)
  · have h1 : cost_per_click m = .ok 0 := by
      unfold cost_per_click
      rw [if_neg hpos]
    have h2 : conversion_rate m = .ok 0 := by
      unfold conversion_rate
      rw [if_neg hpos]
    have h3 : phone_rate m = .ok 0 := by
      unfold phone_rate
      rw [if_neg hpos]
    exact ⟨⟨0, h1⟩, ⟨0, h2⟩, ⟨0, h3⟩, fun _ => ⟨h1, h2, h3⟩⟩

theorem renderer_ratios_guarded_w :
    cost_per_click [] = .ok 0 ∧ conversion_rate [] = .ok 0
    ∧ phone_rate [] = .ok 0 :=
  (renderer_ratios_guarded []).2.2.2 rfl

/-- C10 counterexample: a two-element list whose first element is a dict and
whose second is not is processed by the handler (the first element becomes
the payload), although it is not a list of dictionaries, so the claimed
rejection condition is wrong. -/
theorem dispatch_mixed_list :
    extract_payload (.list [.dict [], .int 5]) = .ok []
    ∧ claimAccepts (.list [.dict [], .int 5]) = false := ⟨rfl, rfl⟩

/-- C10 amended: the handler processes the first element of every non-empty
list as the payload; a body is accepted exactly when it is a dict or a
non-empty list whose first element is a dict, and every other body is
rejected with the 400 error string and no pipeline step runs. -/
theorem dispatch_amended :
    (∀ j, (∃ kvs, extract_payload j = .ok kvs) ↔ amendedAccepts j = true)
    ∧ (∀ j, amendedAccepts j = false →
        extract_payload j = .error "Invalid payload format")
    ∧ (∀ x rest, extract_payload (.list (x :: rest))
        = (match x with
           | .dict kvs => Except.ok kvs
           | _ => Except.error "Invalid payload format")) := by
  have hmain : ∀ j, (∃ kvs, extract_payload j = .ok kvs) ↔ amendedAccepts j = true := by
    intro j
    cases j with
    | int n => simp [extract_payload, amendedAccepts, isDictB]
    | float q => simp [extract_payload, amendedAccepts, isDictB]
    | str s => simp [extract_payload, amendedAccepts, isDictB]
    | boolV b => simp [extract_payload, amendedAccepts, isDictB]
    | noneV => simp [extract_payload, amendedAccepts, isDictB]
    | dict kvs => simp [extract_payload, amendedAccepts, isDictB]
    | list l =>
      cases l with
      | nil => simp [extract_payload, amendedAccepts, isDictB]
      | cons x rest =>
        cases x <;> simp [extract_payload, amendedAccepts, isDictB]
  refine ⟨hmain, ?_, ?_⟩
  · intro j hrej
    cases hres : extract_payload j with
    | ok kvs =>
      have := (hmain j).mp ⟨kvs, hres⟩
      rw [hrej] at this
      cases this
    | error msg =>
      cases j with
      | int n => cases hres; rfl
      | float q => cases hres; rfl
      | str s => cases hres; rfl
      | boolV b => cases hres; rfl
      | noneV => cases hres; rfl
      | dict kvs => cases hres
      | list l =>
        cases l with
        | nil => cases hres; rfl
        | cons x rest =>
          cases x <;> first
            | (cases hres; rfl)
            | cases hres
  · intro x rest
    cases x <;> rfl

theorem sanitize_behaviors_w :
    ('_' ≠ ' ' ∧ '_' ≠ '/') ∧ (sanitize_filename "a:b").length ≤ 100 :=
  ⟨sanitize_behaviors.2.1 "a b" '_' (by decide),
   sanitize_behaviors.2.2.2.1 "a:b"⟩

theorem dispatch_amended_w :
    extract_payload (.str "x") = .error "Invalid payload format" :=
  dispatch_amended.2.1 (.str "x") rfl

theorem dateFieldCheck_shape (payload : List (String × PyVal)) (f : String)
    (h : strOrAbsent (pyLookup payload f) = true) :
    dateFieldCheck payload f = .ok (dfErrList (pyLookup payload f) f) := by
  unfold dateFieldCheck dfErrList
  cases ho : pyLookup payload f with
  | none => rfl
  | some v =>
    cases v with
    | str s => rfl
    | int n => rw [ho] at h; cases h
    | float q => rw [ho] at h; cases h
    | boolV b => rw [ho] at h; cases h
    | noneV => rw [ho] at h; cases h
    | list l => rw [ho] at h; cases h
    | dict kvs => rw [ho] at h; cases h

theorem mfe_nil (payload : List (String × PyVal)) :
    missingFieldErrors payload = []
    ↔ ((pyLookup payload "MySFDomainReportRecordID").isSome = true
       ∧ (pyLookup payload "DateStart").isSome = true
       ∧ (pyLookup payload "DateEnd").isSome = true) := by
  unfold missingFieldErrors
  cases pyLookup payload "MySFDomainReportRecordID" <;>
    cases pyLookup payload "DateStart" <;>
    cases pyLookup payload "DateEnd" <;> simp

theorem rie_nil (payload : List (String × PyVal)) :
    recordIdErrors payload = []
    ↔ ridOkIfPresent (pyLookup payload "MySFDomainReportRecordID") = true := by
  unfold recordIdErrors ridOkIfPresent
  cases pyLookup payload "MySFDomainReportRecordID" with
  | none => simp
  | some v => cases v <;> simp

theorem dfErrList_nil (o : Option PyVal) (f : String) :
    dfErrList o f = [] ↔ dateOkIfPresent o = true := by
  unfold dfErrList dateOkIfPresent
  cases o with
  | none => simp
  | some v =>
    cases v <;> simp
    cases parseYMD _ <;> simp [Option.isNone, Option.isSome]

theorem range_nil (payload : List (String × PyVal)) :
    rangeErrors payload = [] ↔ orderOkSpec payload = true := by
  unfold rangeErrors orderOkSpec
  cases pyLookup payload "DateStart" with
  | none => simp
  | some v1 =>
    cases pyLookup payload "DateEnd" with
    | none => cases v1 <;> simp
    | some v2 =>
      cases v1 <;> cases v2 <;> try simp
      rename_i s1 s2
      cases parseYMD s1 <;> cases parseYMD s2 <;> simp

theorem arr_nil (payload : List (String × PyVal)) (f : String) :
    arrayFieldCheck payload f = []
    ↔ arrayFieldOkSpec (pyLookup payload f) = true := by
  unfold arrayFieldCheck arrayFieldOkSpec
  cases pyLookup payload f with
  | none => simp
  | some v =>
    cases v <;> simp

theorem combine_rid (o : Option PyVal) :
    (o.isSome = true ∧ ridOkIfPresent o = true) ↔ recFieldOk o = true := by
  cases o with
  | none => simp [ridOkIfPresent, recFieldOk]
  | some v => cases v <;> simp [ridOkIfPresent, recFieldOk]

theorem combine_date (o : Option PyVal) (h : strOrAbsent o = true) :
    (o.isSome = true ∧ dateOkIfPresent o = true) ↔ dateFieldOkSpec o = true := by
  cases o with
  | none => simp [dateOkIfPresent, dateFieldOkSpec]
  | some v =>
    cases v <;> simp_all [dateOkIfPresent, dateFieldOkSpec, strOrAbsent]

/-- C4 amended: for every payload whose DateStart and DateEnd values, when
present, are strings, the validator never raises and returns the full list
of rule violations - empty exactly when the payload satisfies the spec rules
- collecting all applicable errors (each missing required field contributes
its message, and an out-of-order parseable range contributes the ordering
message, independently of the other rules); a payload with a non-string
date value instead makes strptime raise TypeError, which the except
ValueError handler does not catch. -/
theorem validate_collects_and_classifies :
    ∀ payload, datesAreStrings payload = true →
      ∃ errs, validate_webhook_payload payload = .ok errs
        ∧ (errs = [] ↔ payload_valid_spec payload = true)
        ∧ ((pyLookup payload "MySFDomainReportRecordID").isNone = true →
            "Missing required field: MySFDomainReportRecordID" ∈ errs)
        ∧ ((pyLookup payload "DateStart").isNone = true →
            "Missing required field: DateStart" ∈ errs)
        ∧ ((pyLookup payload "DateEnd").isNone = true →
            "Missing required field: DateEnd" ∈ errs)
        ∧ (∀ s1 s2 d1 d2, pyLookup payload "DateStart" = some (.str s1) →
            pyLookup payload "DateEnd" = some (.str s2) →
            parseYMD s1 = some d1 → parseYMD s2 = some d2 →
            dateLT d2 d1 = true →
            "DateStart must be before or equal to DateEnd" ∈ errs) := by
  intro payload hds
  obtain ⟨h1, h2⟩ := Bool.and_eq_true_iff.mp hds
  refine ⟨missingFieldErrors payload ++ recordIdErrors payload
    ++ dfErrList (pyLookup payload "DateStart") "DateStart"
    ++ dfErrList (pyLookup payload "DateEnd") "DateEnd"
    ++ rangeErrors payload ++ arrayFieldCheck payload "AccountID"
    ++ arrayFieldCheck payload "CarrierCompany", ?_, ?_, ?_, ?_, ?_, ?_⟩
  · unfold validate_webhook_payload
    rw [dateFieldCheck_shape payload "DateStart" h1,
      dateFieldCheck_shape payload "DateEnd" h2]
    rfl
  · constructor
    · intro hnil
      simp only [List.append_eq_nil] at hnil
      obtain ⟨⟨⟨⟨⟨⟨e1, e2⟩, e3⟩, e4⟩, e5⟩, e6⟩, e7⟩ := hnil
      obtain ⟨p1, p2, p3⟩ := (mfe_nil payload).mp e1
      have hrid := (combine_rid _).mp ⟨p1, (rie_nil payload).mp e2⟩
      have hdt1 := (combine_date _ h1).mp ⟨p2, (dfErrList_nil _ _).mp e3⟩
      have hdt2 := (combine_date _ h2).mp ⟨p3, (dfErrList_nil _ _).mp e4⟩
      have hord := (range_nil payload).mp e5
      have ha1 := (arr_nil payload "AccountID").mp e6
      have ha2 := (arr_nil payload "CarrierCompany").mp e7
      unfold payload_valid_spec
      rw [hrid, hdt1, hdt2, hord, ha1, ha2]
      rfl
    · intro hvalid
      unfold payload_valid_spec at hvalid
      simp only [Bool.and_eq_true] at hvalid
      obtain ⟨⟨⟨⟨⟨hrid, hdt1⟩, hdt2⟩, hord⟩, ha1⟩, ha2⟩ := hvalid
      obtain ⟨p1, r1⟩ := (combine_rid _).mpr hrid
      obtain ⟨p2, r2⟩ := (combine_date _ h1).mpr hdt1
      obtain ⟨p3, r3⟩ := (combine_date _ h2).mpr hdt2
      simp only [List.append_eq_nil]
      exact ⟨⟨⟨⟨⟨⟨(mfe_nil payload).mpr ⟨p1, p2, p3⟩,
        (rie_nil payload).mpr r1⟩, (dfErrList_nil _ _).mpr r2⟩,
        (dfErrList_nil _ _).mpr r3⟩, (range_nil payload).mpr hord⟩,
        (arr_nil payload "AccountID").mpr ha1⟩,
        (arr_nil payload "CarrierCompany").mpr ha2⟩
  · intro hnone
    simp [missingFieldErrors, Option.isNone_iff_eq_none.mp hnone]
  · intro hnone
    simp [missingFieldErrors, Option.isNone_iff_eq_none.mp hnone]
  · intro hnone
    simp [missingFieldErrors, Option.isNone_iff_eq_none.mp hnone]
  · intro s1 s2 d1 d2 hl1 hl2 hp1 hp2 hlt
    have : rangeErrors payload = ["DateStart must be before or equal to DateEnd"] := by
      unfold rangeErrors
      rw [hl1, hl2]
      dsimp only
      rw [hp1, hp2]
      dsimp only
      rw [if_pos hlt]
    simp [this]

/-- C4 counterexample: a payload whose DateStart is the integer 5 makes the
validator raise TypeError instead of returning an error list. -/
theorem validator_raises_on_non_string_date :
    validate_webhook_payload
      [("MySFDomainReportRecordID", .str "rec123"),
       ("DateStart", .int 5), ("DateEnd", .str "2025-06-30")]
      = .error .typeError := rfl

theorem validate_collects_and_classifies_w :
    ∃ errs, validate_webhook_payload
        [("MySFDomainReportRecordID", .str "rec123"),
         ("DateStart", .str "2025-06-01"), ("DateEnd", .str "2025-06-30")]
        = .ok errs
      ∧ (errs = [] ↔ payload_valid_spec
          [("MySFDomainReportRecordID", .str "rec123"),
           ("DateStart", .str "2025-06-01"), ("DateEnd", .str "2025-06-30")] = true)
      ∧ ((pyLookup [("MySFDomainReportRecordID", .str "rec123"),
           ("DateStart", .str "2025-06-01"), ("DateEnd", .str "2025-06-30")]
          "MySFDomainReportRecordID").isNone = true →
          "Missing required field: MySFDomainReportRecordID" ∈ errs)
      ∧ ((pyLookup [("MySFDomainReportRecordID", .str "rec123"),
           ("DateStart", .str "2025-06-01"), ("DateEnd", .str "2025-06-30")]
          "DateStart").isNone = true →
          "Missing required field: DateStart" ∈ errs)
      ∧ ((pyLookup [("MySFDomainReportRecordID", .str "rec123"),
           ("DateStart", .str "2025-06-01"), ("DateEnd", .str "2025-06-30")]
          "DateEnd").isNone = true →
          "Missing required field: DateEnd" ∈ errs)
      ∧ (∀ s1 s2 d1 d2, pyLookup [("MySFDomainReportRecordID", .str "rec123"),
            ("DateStart", .str "2025-06-01"), ("DateEnd", .str "2025-06-30")]
            "DateStart" = some (.str s1) →
          pyLookup [("MySFDomainReportRecordID", .str "rec123"),
            ("DateStart", .str "2025-06-01"), ("DateEnd", .str "2025-06-30")]
            "DateEnd" = some (.str s2) →
          parseYMD s1 = some d1 → parseYMD s2 = some d2 →
          dateLT d2 d1 = true →
          "DateStart must be before or equal to DateEnd" ∈ errs) :=
  validate_collects_and_classifies
    [("MySFDomainReportRecordID", .str "rec123"),
     ("DateStart", .str "2025-06-01"), ("DateEnd", .str "2025-06-30")] rfl
